import Mathlib

/-!
Shallow embedding of the PdfPptxVideo client (services/geminiService.ts,
services/pptxParser.ts and the two App variants in src/unnamed/part_000 and
src/unnamed/part_001), together with theorems settling the frozen claims
about its specification.

Naming convention: the repository ships two revisions of the App component
(part_000, part_001) and two revisions of the gemini service (both inside
src/unnamed/part_002).  Definitions translated from the first revision carry
the suffix `V0` (or `V1` for `callWithRetry`, which is numbered by order of
appearance inside part_002), definitions from the second revision carry the
next suffix.
-/

namespace PdfPptxVideo

/-- One per-page narration record of the `AnalysisResult` envelope returned by
`analyzeDocument` / `analyzePdfForPpt` (fields `pageIndex`, `title`, `notes` of
the JSON schema in geminiService).  `pageIndex` is an arbitrary integer: the
AI boundary is untrusted. -/
structure SlideRec where
  pageIndex : Int
  title : String
  notes : String
deriving DecidableEq

/-- The canonical `Slide` entity of types.ts: `pageIndex`, `title`, `notes`,
optional `imageUrl` (we omit the lazily attached `audioBuffer`, which is not
part of synchronization). -/
structure Slide where
  pageIndex : Int
  title : String
  notes : String
  imageUrl : Option String
deriving DecidableEq

/-- The fallback notes placeholder of part_000's `startAnalysis`
(`"このページの解説を生成できませんでした。"`). -/
def fallbackNotes : String := "このページの解説を生成できませんでした。"

/-- The fallback title of part_000's `startAnalysis` (`` `ページ ${i + 1}` ``). -/
def fallbackTitle (i : Nat) : String := "ページ " ++ toString (i + 1)

/-- Synchronization step of `startAnalysis` in part_000 (lines 99-108):
for each extracted page index `i` in `[0, numPages)` it looks up the AI record
with `pageIndex === i` (`result.slides.find(s => s.pageIndex === i)`) and
pushes a slide with `pageIndex: i`, falling back to placeholder title/notes
when the record is absent.  JavaScript `aiSlide?.title || default` treats the
empty string as falsy, hence the explicit empty-string checks. -/
def finalSlidesV0 (images : List String) (aiSlides : List SlideRec) : List Slide :=
  (List.range images.length).map (fun (i : Nat) =>
    let aiSlide := aiSlides.find? (fun s => s.pageIndex == (i : Int))
    { pageIndex := (i : Int)
      title := match aiSlide with
        | some s => if s.title = "" then fallbackTitle i else s.title
        | none => fallbackTitle i
      notes := match aiSlide with
        | some s => if s.notes = "" then fallbackNotes else s.notes
        | none => fallbackNotes
      imageUrl := images.get? i })

/-- Synchronization step of `startAnalysis` in part_001 (lines 169-174):
`result.slides.map((s, i) => ({ ...s, imageUrl: images[i] || undefined }))`.
The AI record list is adopted as-is; only an image is attached positionally
(`images[i] || undefined`, so a missing or empty entry becomes `undefined`). -/
def finalSlidesV1 (images : List String) (aiSlides : List SlideRec) : List Slide :=
  aiSlides.enum.map (fun p =>
    { pageIndex := p.2.pageIndex
      title := p.2.title
      notes := p.2.notes
      imageUrl := match images.get? p.1 with
        | some img => if img = "" then none else some img
        | none => none })

theorem fallbackTitle_ne_empty (i : Nat) : fallbackTitle i ≠ "" := by
  intro h
  have hlen := congrArg String.length h
  simp [fallbackTitle, String.length_append] at hlen
  exact (by decide : ¬ ("ページ ".length = 0)) hlen.1

/-- C1: the part_000 synchronization step (`startAnalysis`, lines 99-108)
returns, for `N` extracted pages and an arbitrary AI response, exactly `N`
slides whose `pageIndex` values are exactly `0..N-1` in order (hence unique);
out-of-range narration records can neither appear in the output nor shift the
position of valid records, because position `i` always carries `pageIndex i`.
(The part_001 variant violates the original claim; see the counterexample.) -/
theorem finalSlidesV0_reindex (images : List String) (ai : List SlideRec) :
    (finalSlidesV0 images ai).length = images.length ∧
    (finalSlidesV0 images ai).map Slide.pageIndex
      = (List.range images.length).map Int.ofNat ∧
    ((finalSlidesV0 images ai).map Slide.pageIndex).Nodup := by
  have h : (finalSlidesV0 images ai).map Slide.pageIndex
      = (List.range images.length).map Int.ofNat := by
    simp [finalSlidesV0, List.map_map]
  refine ⟨by simp [finalSlidesV0], h, ?_⟩
  rw [h]
  exact (List.nodup_range _).map (fun a b hab => Int.ofNat_inj.mp hab)

/-- C1 counterexample: the part_001 synchronization step (`startAnalysis`,
lines 169-174) keeps the AI slide list as returned.  With one extracted page
(`N = 1`) and a single narration record claiming `pageIndex = 5`, the output's
`pageIndex` list is `[5]`, not `0..N-1`: the out-of-range record appears in
the output, refuting the claim as stated. -/
theorem finalSlidesV1_c1_counterexample :
    (finalSlidesV1 ["img0"] [{ pageIndex := 5, title := "t", notes := "n" }]).map
        Slide.pageIndex
      ≠ (List.range 1).map Int.ofNat := by decide

/-- C2: after the part_000 synchronization step, every slide has non-empty
notes and a non-empty title; in particular an index omitted by the AI gets the
non-empty placeholder title and notes.  (The part_001 variant violates the
original claim; see the counterexample.) -/
theorem finalSlidesV0_nonempty_notes (images : List String) (ai : List SlideRec)
    (s : Slide) (hs : s ∈ finalSlidesV0 images ai) : s.notes ≠ "" ∧ s.title ≠ "" := by
  simp only [finalSlidesV0, List.mem_map, List.mem_range] at hs
  obtain ⟨i, hi, rfl⟩ := hs
  constructor
  · cases h : ai.find? (fun s => s.pageIndex == (i : Int)) with
    | none => simp [h, fallbackNotes]
    | some r =>
      simp only [h]
      by_cases hr : r.notes = "" <;> simp [hr, fallbackNotes]
  · cases h : ai.find? (fun s => s.pageIndex == (i : Int)) with
    | none => simpa [h] using fallbackTitle_ne_empty i
    | some r =>
      simp only [h]
      by_cases hr : r.title = ""
      · simpa [hr] using fallbackTitle_ne_empty i
      · simp only [if_neg hr]
        exact hr

/-- C2 witness: concrete run of the part_000 synchronizer with one page and an
empty AI response; the single output slide (the placeholder slide) is a member
of the output and has non-empty notes and title. -/
theorem finalSlidesV0_nonempty_notes_witness :
    ({ pageIndex := 0, title := fallbackTitle 0, notes := fallbackNotes,
       imageUrl := some "i" } : Slide) ∈ finalSlidesV0 ["i"] [] ∧
    ({ pageIndex := 0, title := fallbackTitle 0, notes := fallbackNotes,
       imageUrl := some "i" } : Slide).notes ≠ "" :=
  ⟨by decide, (finalSlidesV0_nonempty_notes ["i"] [] _ (by decide)).1⟩

/-- C2 counterexample: the part_001 synchronization step performs no
placeholder substitution.  With one extracted page and an AI record whose
`notes` field is the empty string, the output contains a slide with empty
notes, refuting the claim as stated. -/
theorem finalSlidesV1_c2_counterexample :
    ¬ (∀ s ∈ finalSlidesV1 ["img"] [{ pageIndex := 0, title := "t", notes := "" }],
        s.notes ≠ "") := by decide

/-! ## Video composition (`createVideo` in part_000 and part_001)

`createVideo` is modelled as the ordered trace of its observable side effects.
Failure points are abstracted by `VideoDeps`: per-slide success of
`generateSpeechForText`, per-slide success of the image preload (part_000
only), and success of the recording machinery (`new MediaRecorder` and
friends).  `drawReps i` is the timing-dependent number of extra iterations of
the per-slide redraw loop (the loop always runs at least once, because its
deadline lies strictly in the future when it is entered). -/

/-- Observable side effects of `createVideo`, in program order. -/
inductive VEvent where
  | speech (i : Nat)
  | speechFail (i : Nat)
  | imageLoad (i : Nat)
  | imageFail (i : Nat)
  | sleep (ms : Nat)
  | draw (i : Nat)
  | captureStart
  | captureFail
  | audioStart (i : Nat)
  | captureStop
  | blobAssembled
  | quotaConsumed
  | setVideoUrl
  | setCompleted
  | setError
  | closeAudioCtx
deriving DecidableEq

/-- Abstract environment for a `createVideo` run: which external operations
succeed. -/
structure VideoDeps where
  speechOk : Nat → Bool
  imageOk : Nat → Bool
  recorderOk : Bool
  drawReps : Nat → Nat

/-- Materialization loop of part_000's `createVideo` (lines 124-137): per
slide, `generateSpeechForText` then preload the slide image; the first
exception aborts the whole loop (propagating to the `catch`). -/
def matLoopV0 (deps : VideoDeps) : List Nat → List VEvent × Bool
  | [] => ([], true)
  | i :: rest =>
    if deps.speechOk i then
      if deps.imageOk i then
        let r := matLoopV0 deps rest
        (VEvent.speech i :: VEvent.imageLoad i :: r.1, r.2)
      else ([VEvent.speech i, VEvent.imageFail i], false)
    else ([VEvent.speechFail i], false)

/-- Materialization loop of part_001's `createVideo` (lines 191-201): per
slide, `generateSpeechForText` then a fixed 2000 ms pacing delay; the first
exception aborts the whole loop. -/
def matLoopV1 (deps : VideoDeps) : List Nat → List VEvent × Bool
  | [] => ([], true)
  | i :: rest =>
    if deps.speechOk i then
      let r := matLoopV1 deps rest
      (VEvent.speech i :: VEvent.sleep 2000 :: r.1, r.2)
    else ([VEvent.speechFail i], false)

/-- Per-slide playback loop (both variants): start the slide's audio source,
then redraw the slide's frame until the deadline elapses (at least once). -/
def slidePlaybackLoop (deps : VideoDeps) : List Nat → List VEvent
  | [] => []
  | i :: rest =>
    (VEvent.audioStart i :: List.replicate (deps.drawReps i + 1) (VEvent.draw i))
      ++ slidePlaybackLoop deps rest

/-- Side-effect trace of part_000's `createVideo` (lines 117-222): after a
successful materialization and recorder setup it pre-draws slide 0, starts
capture, waits 400 ms, re-draws slide 0, plays all slides, waits 500 ms,
stops capture, assembles the blob, and only then consumes quota, publishes
the URL and closes the audio context.  Any exception jumps to the `catch`
block, which merely sets the error state. -/
def createVideoTraceV0 (n : Nat) (deps : VideoDeps) : List VEvent :=
  let mat := matLoopV0 deps (List.range n)
  if mat.2 = false then mat.1 ++ [VEvent.setError]
  else if deps.recorderOk = false then mat.1 ++ [VEvent.captureFail, VEvent.setError]
  else
    mat.1 ++ [VEvent.draw 0, VEvent.captureStart, VEvent.sleep 400, VEvent.draw 0]
      ++ slidePlaybackLoop deps (List.range n)
      ++ [VEvent.sleep 500, VEvent.captureStop, VEvent.blobAssembled, VEvent.quotaConsumed,
          VEvent.setVideoUrl, VEvent.setCompleted, VEvent.closeAudioCtx]

/-- Side-effect trace of part_001's `createVideo` (lines 182-254): capture is
started immediately (`recorder.start()` directly followed by the slide loop,
no pre-draw and no settling delay); on success the blob is assembled, quota
consumed, URL published and the audio context closed. -/
def createVideoTraceV1 (n : Nat) (deps : VideoDeps) : List VEvent :=
  let mat := matLoopV1 deps (List.range n)
  if mat.2 = false then mat.1 ++ [VEvent.setError]
  else if deps.recorderOk = false then mat.1 ++ [VEvent.captureFail, VEvent.setError]
  else
    mat.1 ++ [VEvent.captureStart]
      ++ slidePlaybackLoop deps (List.range n)
      ++ [VEvent.captureStop, VEvent.blobAssembled, VEvent.quotaConsumed,
          VEvent.setVideoUrl, VEvent.setCompleted, VEvent.closeAudioCtx]

/-- Events that the materialization loops can emit. -/
def isMatEv : VEvent → Bool
  | VEvent.speech _ => true
  | VEvent.speechFail _ => true
  | VEvent.imageLoad _ => true
  | VEvent.imageFail _ => true
  | VEvent.sleep _ => true
  | _ => false

def isDraw : VEvent → Bool
  | VEvent.draw _ => true
  | _ => false

/-- A full frame is drawn before stream capture starts. -/
def drawBeforeCapture (t : List VEvent) : Bool :=
  (t.takeWhile (fun e => !(e == VEvent.captureStart))).any isDraw

/-- Directly after capture start comes a 400 ms settling delay followed by a
re-draw of the first slide's frame. -/
def settleRedrawAfterCapture (t : List VEvent) : Bool :=
  match t.dropWhile (fun e => !(e == VEvent.captureStart)) with
  | VEvent.captureStart :: VEvent.sleep d :: VEvent.draw j :: _ => d == 400 && j == 0
  | _ => false

theorem matLoopV0_events (deps : VideoDeps) (l : List Nat) :
    ∀ e ∈ (matLoopV0 deps l).1, isMatEv e = true := by
  induction l with
  | nil => simp [matLoopV0]
  | cons i rest ih =>
    intro e he
    simp only [matLoopV0] at he
    by_cases h1 : deps.speechOk i
    · by_cases h2 : deps.imageOk i
      · simp [h1, h2] at he
        rcases he with rfl | rfl | he
        · rfl
        · rfl
        · exact ih e he
      · simp [h1, h2] at he
        rcases he with rfl | rfl <;> rfl
    · simp [h1] at he
      subst he
      rfl

theorem matLoopV1_events (deps : VideoDeps) (l : List Nat) :
    ∀ e ∈ (matLoopV1 deps l).1, isMatEv e = true := by
  induction l with
  | nil => simp [matLoopV1]
  | cons i rest ih =>
    intro e he
    simp only [matLoopV1] at he
    by_cases h1 : deps.speechOk i
    · simp [h1] at he
      rcases he with rfl | rfl | he
      · rfl
      · rfl
      · exact ih e he
    · simp [h1] at he
      subst he
      rfl

theorem takeWhile_append_all {α : Type} {p : α → Bool} {l1 l2 : List α}
    (h : ∀ a ∈ l1, p a = true) :
    (l1 ++ l2).takeWhile p = l1 ++ l2.takeWhile p := by
  induction l1 with
  | nil => simp
  | cons a l ih =>
    have ha : p a = true := h a (by simp)
    simp only [List.cons_append, List.takeWhile_cons, ha, if_true]
    rw [ih (fun b hb => h b (by simp [hb]))]

theorem dropWhile_append_all {α : Type} {p : α → Bool} {l1 l2 : List α}
    (h : ∀ a ∈ l1, p a = true) :
    (l1 ++ l2).dropWhile p = l2.dropWhile p := by
  induction l1 with
  | nil => simp
  | cons a l ih =>
    have ha : p a = true := h a (by simp)
    simp only [List.cons_append, List.dropWhile_cons, ha, if_true]
    exact ih (fun b hb => h b (by simp [hb]))

theorem notMem_matLoopV0 (deps : VideoDeps) (l : List Nat) (e : VEvent)
    (he : isMatEv e = false) : e ∉ (matLoopV0 deps l).1 := by
  intro h
  rw [matLoopV0_events deps l e h] at he
  exact Bool.noConfusion he

theorem notMem_matLoopV1 (deps : VideoDeps) (l : List Nat) (e : VEvent)
    (he : isMatEv e = false) : e ∉ (matLoopV1 deps l).1 := by
  intro h
  rw [matLoopV1_events deps l e h] at he
  exact Bool.noConfusion he

theorem slidePlaybackLoop_events (deps : VideoDeps) (l : List Nat) :
    ∀ e ∈ slidePlaybackLoop deps l,
      (∃ i, e = VEvent.audioStart i) ∨ ∃ i, e = VEvent.draw i := by
  induction l with
  | nil => simp [slidePlaybackLoop]
  | cons i rest ih =>
    intro e he
    simp only [slidePlaybackLoop, List.cons_append, List.mem_cons, List.mem_append] at he
    rcases he with rfl | he
    · exact Or.inl ⟨i, rfl⟩
    rcases he with he | he
    · exact Or.inr ⟨i, List.eq_of_mem_replicate he⟩
    · exact ih e he

theorem notMem_slidePlaybackLoop (deps : VideoDeps) (l : List Nat) (e : VEvent)
    (h1 : ∀ i, e ≠ VEvent.audioStart i) (h2 : ∀ i, e ≠ VEvent.draw i) :
    e ∉ slidePlaybackLoop deps l := by
  intro h
  rcases slidePlaybackLoop_events deps l e h with ⟨i, hi⟩ | ⟨i, hi⟩
  · exact h1 i hi
  · exact h2 i hi

/-- C3 (amended): in part_000's `createVideo`, on every recording run (any
slide count, materialization and recorder setup succeeded) a full frame is
drawn strictly before capture starts, and immediately after capture start a
400 ms settling delay is followed by a re-draw of the first slide's frame.
(The part_001 variant violates the original claim; see the counterexample.) -/
theorem createVideoV0_first_frame_before_capture (n : Nat) (deps : VideoDeps)
    (hmat : (matLoopV0 deps (List.range n)).2 = true)
    (hrec : deps.recorderOk = true) :
    drawBeforeCapture (createVideoTraceV0 n deps) = true ∧
    settleRedrawAfterCapture (createVideoTraceV0 n deps) = true := by
  have hne : ∀ e ∈ (matLoopV0 deps (List.range n)).1,
      (fun e => !(e == VEvent.captureStart)) e = true := by
    intro e he
    have := matLoopV0_events deps (List.range n) e he
    cases e <;> simp_all [isMatEv]
  constructor
  · unfold drawBeforeCapture createVideoTraceV0
    simp only [hmat, hrec]
    norm_num
    rw [takeWhile_append_all hne]
    simp only [List.takeWhile_cons]
    norm_num
    exact ⟨VEvent.draw 0, Or.inr ⟨by decide, rfl⟩, rfl⟩
  · unfold settleRedrawAfterCapture createVideoTraceV0
    simp only [hmat, hrec]
    norm_num
    rw [dropWhile_append_all hne]
    simp [List.dropWhile_cons]

/-- Environment in which every external operation succeeds and every redraw
loop runs exactly once. -/
def depsAllOk : VideoDeps :=
  { speechOk := fun _ => true, imageOk := fun _ => true, recorderOk := true,
    drawReps := fun _ => 0 }

/-- C3 witness: concrete one-slide all-success run of part_000's
`createVideo`. -/
theorem createVideoV0_first_frame_witness :
    drawBeforeCapture (createVideoTraceV0 1 depsAllOk) = true ∧
    settleRedrawAfterCapture (createVideoTraceV0 1 depsAllOk) = true :=
  createVideoV0_first_frame_before_capture 1 depsAllOk (by decide) (by decide)

/-- C3 counterexample: in part_001's `createVideo` (lines 227-229),
`recorder.start()` is the first recording-phase action: even on an
all-success one-slide run no frame has been drawn when capture starts, and
there is no settling-delay re-draw, refuting the claim as stated. -/
theorem createVideoV1_capture_without_predraw :
    drawBeforeCapture (createVideoTraceV1 1 depsAllOk) = false := by decide

/-- C8 counterexample environment: speech synthesis fails on the first
slide. -/
def depsSpeechFail : VideoDeps :=
  { speechOk := fun _ => false, imageOk := fun _ => true, recorderOk := true,
    drawReps := fun _ => 0 }

/-- C8 (amended): the audio context is closed exactly on successful runs of
`createVideo` (both variants): `audioCtx.close()` is the last statement of
the `try` block, and the `catch` block does not close it, so every failing
run terminates without releasing the audio graph. -/
theorem audioCtx_close_iff_success (n : Nat) (deps : VideoDeps) :
    (VEvent.closeAudioCtx ∈ createVideoTraceV0 n deps ↔
      (matLoopV0 deps (List.range n)).2 = true ∧ deps.recorderOk = true) ∧
    (VEvent.closeAudioCtx ∈ createVideoTraceV1 n deps ↔
      (matLoopV1 deps (List.range n)).2 = true ∧ deps.recorderOk = true) := by
  constructor
  · have hnotin := notMem_matLoopV0 deps (List.range n) VEvent.closeAudioCtx rfl
    cases hmatv : (matLoopV0 deps (List.range n)).2 <;> cases hrecv : deps.recorderOk <;>
      simp [createVideoTraceV0, hmatv, hrecv, List.mem_append, hnotin]
  · have hnotin := notMem_matLoopV1 deps (List.range n) VEvent.closeAudioCtx rfl
    cases hmatv : (matLoopV1 deps (List.range n)).2 <;> cases hrecv : deps.recorderOk <;>
      simp [createVideoTraceV1, hmatv, hrecv, List.mem_append, hnotin]

/-- C8 counterexample: a part_000 run in which speech synthesis for the first
slide fails terminates (with the error state set) without ever closing the
audio context, refuting the claim as stated. -/
theorem audioCtx_not_closed_on_failure :
    VEvent.closeAudioCtx ∉ createVideoTraceV0 1 depsSpeechFail := by decide

theorem count_matLoopV0_quota (deps : VideoDeps) (l : List Nat) :
    (matLoopV0 deps l).1.count VEvent.quotaConsumed = 0 :=
  List.count_eq_zero.mpr (notMem_matLoopV0 deps l _ rfl)

theorem count_matLoopV1_quota (deps : VideoDeps) (l : List Nat) :
    (matLoopV1 deps l).1.count VEvent.quotaConsumed = 0 :=
  List.count_eq_zero.mpr (notMem_matLoopV1 deps l _ rfl)

theorem count_playback_quota (deps : VideoDeps) (l : List Nat) :
    (slidePlaybackLoop deps l).count VEvent.quotaConsumed = 0 :=
  List.count_eq_zero.mpr
    (notMem_slidePlaybackLoop deps l _ (fun i h => by cases h) (fun i h => by cases h))

/-- C4: in both `createVideo` variants, `useQuota()` runs exactly once on a
fully successful run and never otherwise — in particular not when
materialization succeeds but composition fails before the blob is assembled —
and when it runs it comes directly after blob assembly. -/
theorem useQuota_only_on_completion (n : Nat) (deps : VideoDeps) :
    ((createVideoTraceV0 n deps).count VEvent.quotaConsumed =
      if (matLoopV0 deps (List.range n)).2 = true ∧ deps.recorderOk = true then 1 else 0) ∧
    ((createVideoTraceV1 n deps).count VEvent.quotaConsumed =
      if (matLoopV1 deps (List.range n)).2 = true ∧ deps.recorderOk = true then 1 else 0) ∧
    ((matLoopV0 deps (List.range n)).2 = true → deps.recorderOk = true →
      ∃ pre, createVideoTraceV0 n deps =
        pre ++ [VEvent.blobAssembled, VEvent.quotaConsumed, VEvent.setVideoUrl,
                VEvent.setCompleted, VEvent.closeAudioCtx]) ∧
    ((matLoopV1 deps (List.range n)).2 = true → deps.recorderOk = true →
      ∃ pre, createVideoTraceV1 n deps =
        pre ++ [VEvent.blobAssembled, VEvent.quotaConsumed, VEvent.setVideoUrl,
                VEvent.setCompleted, VEvent.closeAudioCtx]) := by
  refine ⟨?_, ?_, ?_, ?_⟩
  · cases hmatv : (matLoopV0 deps (List.range n)).2 <;> cases hrecv : deps.recorderOk <;>
      simp [createVideoTraceV0, hmatv, hrecv, List.count_append, count_matLoopV0_quota,
        count_playback_quota]
  · cases hmatv : (matLoopV1 deps (List.range n)).2 <;> cases hrecv : deps.recorderOk <;>
      simp [createVideoTraceV1, hmatv, hrecv, List.count_append, count_matLoopV1_quota,
        count_playback_quota]
  · intro hmat hrec
    refine ⟨(matLoopV0 deps (List.range n)).1
      ++ [VEvent.draw 0, VEvent.captureStart, VEvent.sleep 400, VEvent.draw 0]
      ++ slidePlaybackLoop deps (List.range n)
      ++ [VEvent.sleep 500, VEvent.captureStop], ?_⟩
    simp [createVideoTraceV0, hmat, hrec]
  · intro hmat hrec
    refine ⟨(matLoopV1 deps (List.range n)).1 ++ [VEvent.captureStart]
      ++ slidePlaybackLoop deps (List.range n) ++ [VEvent.captureStop], ?_⟩
    simp [createVideoTraceV1, hmat, hrec]

/-- C4 witness: on the concrete all-success one-slide run of part_000,
quota consumption directly follows blob assembly at the end of the trace. -/
theorem useQuota_only_on_completion_witness :
    ∃ pre, createVideoTraceV0 1 depsAllOk =
      pre ++ [VEvent.blobAssembled, VEvent.quotaConsumed, VEvent.setVideoUrl,
              VEvent.setCompleted, VEvent.closeAudioCtx] :=
  (useQuota_only_on_completion 1 depsAllOk).2.2.1 (by decide) (by decide)

/-! ## Slide timing schedule (C6)

The per-slide playback loop of `createVideo` computes, for each slide `i`, a
deadline `endTime = startTime + duration * 1000 + pad` (`pad = 600` in
part_000, `pad = 300` in part_001) and keeps redrawing until the wall clock
passes the deadline; only then does the next slide's audio start.  Loop-exit
overshoot past the deadline (frame/timer granularity) is the nonnegative
`slack`. -/

/-- Wall-clock start time of slide `i`'s audio in the per-slide loop. -/
def slideStartTime (pad t0 : Nat) (durMs slack : Nat → Nat) : Nat → Nat
  | 0 => t0
  | i + 1 => slideStartTime pad t0 durMs slack i + durMs i + pad + slack i

/-- C6: for both variants (trailing padding 600 ms in part_000, 300 ms in
part_001): slide `i`'s deadline (audio duration plus the fixed trailing
padding) lies at or before slide `i+1`'s audio start, so no two narration
windows overlap; and with no loop overshoot, a slide's display window is
exactly its narration duration plus the fixed padding. -/
theorem slide_schedule_non_overlap (t0 : Nat) (durMs slack : Nat → Nat) (i : Nat) :
    (slideStartTime 600 t0 durMs slack i + durMs i + 600 ≤
      slideStartTime 600 t0 durMs slack (i + 1)) ∧
    (slideStartTime 600 t0 durMs slack i + durMs i <
      slideStartTime 600 t0 durMs slack (i + 1)) ∧
    (slideStartTime 600 t0 durMs (fun _ => 0) (i + 1) =
      slideStartTime 600 t0 durMs (fun _ => 0) i + durMs i + 600) ∧
    (slideStartTime 300 t0 durMs slack i + durMs i + 300 ≤
      slideStartTime 300 t0 durMs slack (i + 1)) ∧
    (slideStartTime 300 t0 durMs slack i + durMs i <
      slideStartTime 300 t0 durMs slack (i + 1)) ∧
    (slideStartTime 300 t0 durMs (fun _ => 0) (i + 1) =
      slideStartTime 300 t0 durMs (fun _ => 0) i + durMs i + 300) := by
  simp [slideStartTime]
  omega

/-! ## Retry policy at the AI backend boundary (`callWithRetry`, part_002)

part_002 contains two revisions of the gemini service.  The first revision's
`callWithRetry` (lines 13-43) retries when the error message is classified as
overloaded OR rate-limited (429/quota); the second revision's (lines 204-246)
retries only on overload and maps quota errors to a distinct user-facing
message.  We model the called function as a map from the attempt number to an
abstract result; an error carries its message string (for the second
revision, the error-detail string that the source extracts from an embedded
JSON payload when one is present — the extraction itself does not affect the
retry classification).  `JavaScript`'s `String.prototype.includes` is the
substring test `strContains`, and `toLowerCase` is `lowerStr`. -/

def hasPrefixCL : List Char → List Char → Bool
  | _, [] => true
  | [], _ :: _ => false
  | c :: cs, d :: ds => c == d && hasPrefixCL cs ds

def containsCL : List Char → List Char → Bool
  | [], pat => pat.isEmpty
  | c :: cs, pat => hasPrefixCL (c :: cs) pat || containsCL cs pat

/-- `s.includes(pat)` of JavaScript. -/
def strContains (s pat : String) : Bool := containsCL s.toList pat.toList

/-- `s.toLowerCase()` of JavaScript (ASCII case folding suffices for the
classification keywords involved). -/
def lowerStr (s : String) : String := String.mk (s.toList.map Char.toLower)

/-- Result of one attempt of the wrapped function: resolved, resolved with a
falsy value, or rejected with an error message. -/
inductive AttemptResult where
  | ok
  | empty
  | throwErr (msg : String)
deriving DecidableEq

/-- Outcome of a `callWithRetry` run, carrying the list of backoff delays
that were slept (in order). -/
inductive RetryOutcome where
  | ok (slept : List Nat)
  | err (msg : String) (slept : List Nat)
  | exhausted (slept : List Nat)
deriving DecidableEq

def RetryOutcome.sleeps : RetryOutcome → List Nat
  | RetryOutcome.ok s => s
  | RetryOutcome.err _ s => s
  | RetryOutcome.exhausted s => s

/-- First revision (part_002 lines 21-23): `errorMsg.includes("503") ||
errorMsg.toLowerCase().includes("overloaded") ||
errorMsg.includes("UNAVAILABLE")`. -/
def isOverloadedV1 (msg : String) : Bool :=
  strContains msg "503" || strContains (lowerStr msg) "overloaded" ||
    strContains msg "UNAVAILABLE"

/-- First revision: `errorMsg.includes("429") ||
errorMsg.toLowerCase().includes("quota")`. -/
def isRateLimitedV1 (msg : String) : Bool :=
  strContains msg "429" || strContains (lowerStr msg) "quota"

/-- First revision's error thrown on a falsy result of `fn`. -/
def emptyRespMsg : String := "AIから空の応答が返されました。"

def safetyMsgV1 : String :=
  "コンテンツがAIの安全ポリシーによりブロックされました。内容を変更して試してください。"

/-- `` `AI解析エラー: ${errorMsg || "不明なエラーが発生しました。"}` `` (both
revisions use the same wrapped message). -/
def genericMsg (msg : String) : String :=
  "AI解析エラー: " ++ (if msg = "" then "不明なエラーが発生しました。" else msg)

/-- First revision: the `if (!result) throw ...` check makes a falsy result an
error caught by the same iteration's `catch`. -/
def attemptMsgV1 : AttemptResult → Option String
  | AttemptResult.ok => none
  | AttemptResult.empty => some emptyRespMsg
  | AttemptResult.throwErr m => some m

/-- Loop body of the first revision's `callWithRetry`; `rem` is the number of
iterations the `for` loop still has (`maxRetries - i`), `delay` the current
backoff delay, `slept` the delays slept so far.  Retry requires
`i < maxRetries - 1`, i.e. `0 < rem` in the `rem + 1` pattern. -/
def callWithRetryV1Go (fn : Nat → AttemptResult) : Nat → Nat → Nat → List Nat → RetryOutcome
  | 0, _, _, slept => RetryOutcome.exhausted slept
  | rem + 1, i, delay, slept =>
    match attemptMsgV1 (fn i) with
    | none => RetryOutcome.ok slept
    | some msg =>
      if (isOverloadedV1 msg || isRateLimitedV1 msg) && decide (0 < rem) then
        callWithRetryV1Go fn rem (i + 1) (delay * 2) (slept ++ [delay])
      else if strContains msg "SAFETY" then RetryOutcome.err safetyMsgV1 slept
      else RetryOutcome.err (genericMsg msg) slept

/-- First revision's `callWithRetry` with the default `maxRetries = 5` and
initial delay 2000 ms (its callers never override the default). -/
def callWithRetryV1 (fn : Nat → AttemptResult) : RetryOutcome :=
  callWithRetryV1Go fn 5 0 2000 []

/-- Second revision (part_002 lines 232-233): `errorDetail.includes("quota")
|| errorDetail.includes("429") || errorDetail.includes("RESOURCE_EXHAUSTED")`. -/
def isQuotaExceededV2 (d : String) : Bool :=
  strContains d "quota" || strContains d "429" || strContains d "RESOURCE_EXHAUSTED"

/-- Second revision: `errorDetail.includes("503") ||
errorDetail.includes("overloaded") || errorDetail.includes("UNAVAILABLE")`. -/
def isOverloadedV2 (d : String) : Bool :=
  strContains d "503" || strContains d "overloaded" || strContains d "UNAVAILABLE"

/-- The second revision's distinct user-facing quota-exceeded error. -/
def quotaMsgV2 : String :=
  "Gemini APIの利用制限（無料枠の上限）に達しました。1日あたりのリクエスト数または短時間の頻度が上限を超えています。しばらく時間をおいてから再度お試しください。"

def safetyMsgV2 : String := "コンテンツがAIの安全ポリシーによりブロックされました。"

/-- Second revision: no falsy-result check; the result is returned as-is. -/
def attemptMsgV2 : AttemptResult → Option String
  | AttemptResult.ok => none
  | AttemptResult.empty => none
  | AttemptResult.throwErr m => some m

/-- Loop body of the second revision's `callWithRetry`: only overload is
retried; quota-exceeded surfaces the distinct error without retry. -/
def callWithRetryV2Go (fn : Nat → AttemptResult) : Nat → Nat → Nat → List Nat → RetryOutcome
  | 0, _, _, slept => RetryOutcome.exhausted slept
  | rem + 1, i, delay, slept =>
    match attemptMsgV2 (fn i) with
    | none => RetryOutcome.ok slept
    | some d =>
      if isOverloadedV2 d && decide (0 < rem) then
        callWithRetryV2Go fn rem (i + 1) (delay * 2) (slept ++ [delay])
      else if isQuotaExceededV2 d then RetryOutcome.err quotaMsgV2 slept
      else if strContains d "SAFETY" then RetryOutcome.err safetyMsgV2 slept
      else RetryOutcome.err (genericMsg d) slept

/-- Second revision's `callWithRetry` with the default `maxRetries = 5` and
initial delay 3000 ms. -/
def callWithRetryV2 (fn : Nat → AttemptResult) : RetryOutcome :=
  callWithRetryV2Go fn 5 0 3000 []

/-- C5 counterexample: in the first revision of `callWithRetry` (part_002
lines 13-43) a pure quota-exceeded error ("429") IS retried: the run against
a function that always rejects with "429" sleeps a non-empty list of backoff
delays, refuting "a quota-exceeded response is never retried". -/
theorem callWithRetryV1_retries_quota :
    (callWithRetryV1 (fun _ => AttemptResult.throwErr "429")).sleeps ≠ [] := by decide

/-- C5 (amended): in the second revision of `callWithRetry` a quota-exceeded
(non-overload) error is never retried and surfaces the distinct quota
message, and a pure transient-overload error is retried with exponential
backoff (base 3000 ms, doubling per attempt, at most 5 attempts) before a
wrapped error surfaces; in the first revision, however, a rate-limited
(429/quota) error is retried with the same backoff scheme (base 2000 ms) and
after exhausting the attempts surfaces the generic wrapped error, not a
distinct quota error. -/
theorem callWithRetry_policy (msg : String) (fn : Nat → AttemptResult)
    (hfn : ∀ i, fn i = AttemptResult.throwErr msg) :
    (isQuotaExceededV2 msg = true → isOverloadedV2 msg = false →
      callWithRetryV2 fn = RetryOutcome.err quotaMsgV2 []) ∧
    (isOverloadedV2 msg = true → isQuotaExceededV2 msg = false →
      strContains msg "SAFETY" = false →
      callWithRetryV2 fn = RetryOutcome.err (genericMsg msg) [3000, 6000, 12000, 24000]) ∧
    (isRateLimitedV1 msg = true → strContains msg "SAFETY" = false →
      callWithRetryV1 fn = RetryOutcome.err (genericMsg msg) [2000, 4000, 8000, 16000]) := by
  refine ⟨?_, ?_, ?_⟩
  · intro h1 h2
    simp [callWithRetryV2, callWithRetryV2Go, hfn, attemptMsgV2, h1, h2]
  · intro h1 h2 h3
    simp [callWithRetryV2, callWithRetryV2Go, hfn, attemptMsgV2, h1, h2, h3]
  · intro h1 h2
    simp [callWithRetryV1, callWithRetryV1Go, hfn, attemptMsgV1, h1, h2]

/-- C5 witness: the always-"429" function is not retried by the second
revision (distinct quota error, no sleeps) but is retried four times by the
first revision, which then surfaces the generic wrapped error. -/
theorem callWithRetry_policy_witness :
    callWithRetryV2 (fun _ => AttemptResult.throwErr "429") = RetryOutcome.err quotaMsgV2 [] ∧
    callWithRetryV1 (fun _ => AttemptResult.throwErr "429") =
      RetryOutcome.err (genericMsg "429") [2000, 4000, 8000, 16000] :=
  ⟨(callWithRetry_policy "429" _ (fun _ => rfl)).1 (by decide) (by decide),
   (callWithRetry_policy "429" _ (fun _ => rfl)).2.2 (by decide) (by decide)⟩

/-! ## Audio decoding (`decodeAudioData` in part_002, both revisions identical)

`new Int16Array(data.buffer)` reinterprets the raw byte buffer as 16-bit
signed little-endian samples; `frameCount = dataInt16.length / numChannels`;
`channelData[i] = dataInt16[i * numChannels + channel] / 32768.0`.  Bytes are
`Fin 256` (as enforced by `Uint8Array`), samples are modelled in `ℚ`
(`int16 / 32768` is exact in binary floating point, so `ℚ` loses nothing). -/

/-- Two's-complement value of a little-endian byte pair, as `Int16Array`
reads it. -/
def toInt16 (lo hi : Fin 256) : Int :=
  let u := lo.val + 256 * hi.val
  if u < 32768 then (u : Int) else (u : Int) - 65536

/-- `new Int16Array(data.buffer)`: consecutive little-endian byte pairs. -/
def pcmToInt16 : List (Fin 256) → List Int
  | lo :: hi :: rest => toInt16 lo hi :: pcmToInt16 rest
  | _ => []

/-- The `AudioBuffer` produced by `ctx.createBuffer` and filled by
`decodeAudioData`. -/
structure AudioBufferModel where
  sampleRate : Nat
  numChannels : Nat
  channels : List (List ℚ)

/-- `decodeAudioData(data, ctx, sampleRate, numChannels)` of part_002:
deinterleaves the 16-bit samples into `numChannels` channels of `frameCount`
frames, normalizing each sample by `/ 32768.0`. -/
def decodeAudioData (data : List (Fin 256)) (sampleRate numChannels : Nat) : AudioBufferModel :=
  let dataInt16 := pcmToInt16 data
  let frameCount := dataInt16.length / numChannels
  { sampleRate := sampleRate
    numChannels := numChannels
    channels := (List.range numChannels).map (fun ch =>
      (List.range frameCount).map (fun i =>
        ((dataInt16.getD (i * numChannels + ch) 0 : Int) : ℚ) / 32768)) }

/-- `generateSpeechForText`'s call `decodeAudioData(audioBytes, audioCtx,
24000, 1)`: raw synthesized audio is interpreted as 24 kHz mono PCM. -/
def generateSpeechAudio (data : List (Fin 256)) : AudioBufferModel :=
  decodeAudioData data 24000 1

theorem toInt16_bounds (lo hi : Fin 256) : -32768 ≤ toInt16 lo hi ∧ toInt16 lo hi ≤ 32767 := by
  have h1 := lo.isLt
  have h2 := hi.isLt
  by_cases h : lo.val + 256 * hi.val < 32768 <;> simp [toInt16, h] <;> omega

theorem pcm_bounds : ∀ (data : List (Fin 256)), ∀ z ∈ pcmToInt16 data, -32768 ≤ z ∧ z ≤ 32767
  | [] => by simp [pcmToInt16]
  | [x] => by simp [pcmToInt16]
  | lo :: hi :: rest => by
    intro z hz
    simp only [pcmToInt16, List.mem_cons] at hz
    rcases hz with rfl | hz
    · exact toInt16_bounds lo hi
    · exact pcm_bounds rest z hz

theorem sample_bound (z : Int) (h : -32768 ≤ z ∧ z ≤ 32767) :
    -1 ≤ ((z : ℚ) / 32768) ∧ ((z : ℚ) / 32768) ≤ 1 := by
  have h32 : (0 : ℚ) < 32768 := by norm_num
  constructor
  · rw [le_div_iff₀ h32]
    have hc : (-32768 : ℚ) ≤ (z : ℚ) := by exact_mod_cast h.1
    linarith
  · rw [div_le_one h32]
    have hc : (z : ℚ) ≤ 32767 := by exact_mod_cast h.2
    linarith

/-- C9: the speech path decodes raw synthesized audio as 24 kHz mono 16-bit
PCM and normalizes each sample by dividing by 32768, so every output sample
lies in `[-1, 1]`. -/
theorem generateSpeechAudio_normalized (data : List (Fin 256)) :
    (generateSpeechAudio data).sampleRate = 24000 ∧
    (generateSpeechAudio data).numChannels = 1 ∧
    ∀ chan ∈ (generateSpeechAudio data).channels, ∀ q ∈ chan, -1 ≤ q ∧ q ≤ 1 := by
  refine ⟨rfl, rfl, ?_⟩
  intro chan hchan q hq
  simp only [generateSpeechAudio, decodeAudioData, List.mem_map, List.mem_range] at hchan
  obtain ⟨ch, hch, rfl⟩ := hchan
  simp only [List.mem_map, List.mem_range] at hq
  obtain ⟨i, hi, rfl⟩ := hq
  apply sample_bound
  rcases hz : (pcmToInt16 data)[i * 1 + ch]? with _ | z
  · rw [List.getD_eq_getElem?_getD, hz]
    norm_num
  · rw [List.getD_eq_getElem?_getD, hz]
    exact pcm_bounds data z (List.getElem?_mem hz)

theorem generateSpeechAudio_example :
    (generateSpeechAudio [0, 128]).channels = [[-1]] := by
  simp [generateSpeechAudio, decodeAudioData, pcmToInt16, toInt16, List.range_succ]
  norm_num [show ((128 : Fin 256) : Nat) = 128 from rfl]

/-- C9 witness: the byte pair `0x00 0x80` decodes to the single sample
`-32768 / 32768 = -1`, the extreme of the allowed range. -/
theorem generateSpeechAudio_normalized_witness :
    ([-1] : List ℚ) ∈ (generateSpeechAudio [0, 128]).channels ∧
    (-1 : ℚ) ∈ ([-1] : List ℚ) ∧ (-1 ≤ (-1 : ℚ) ∧ (-1 : ℚ) ≤ 1) := by
  have hch : (generateSpeechAudio [0, 128]).channels = [[-1]] := generateSpeechAudio_example
  refine ⟨by rw [hch]; exact List.mem_singleton.mpr rfl, List.mem_singleton.mpr rfl, ?_⟩
  exact (generateSpeechAudio_normalized [0, 128]).2.2 [-1]
    (by rw [hch]; exact List.mem_singleton.mpr rfl) (-1) (List.mem_singleton.mpr rfl)

/-! ## Pptx extraction (`extractTextFromPptx` in services/pptxParser.ts)

The zip archive is modelled as its entry list (name and content in archive
order; `async("text")` and `async("base64")` are both modelled by the stored
content string).  JavaScript string operations are modelled on `List Char`:
`startsWith`/`endsWith` by `hasPrefixCL`/`hasSuffixCL`, the regex `/\d+/` by
the first maximal digit run, the global regex for `<a:t>([^<]+)<\/a:t>` by a
position scan (matches cannot overlap because the capture group excludes
`<`), and `Array.prototype.sort` with the numeric comparator
`(a, b) => numA - numB` by a stable sort with respect to the induced key
order. -/

def hasSuffixCL (s pat : List Char) : Bool := hasPrefixCL s.reverse pat.reverse

/-- Case-insensitive prefix test (for the `/i` regex flag). -/
def hasPrefixCI : List Char → List Char → Bool
  | _, [] => true
  | [], _ :: _ => false
  | c :: cs, d :: ds => c.toLower == d.toLower && hasPrefixCI cs ds

def hasSuffixCI (s pat : List Char) : Bool := hasPrefixCI s.reverse pat.reverse

/-- `parseInt(s.match(/\d+/)![0])` for the slide file names: the value of the
first maximal digit run (0 if there is none). -/
def digitsToNat (ds : List Char) : Nat := ds.foldl (fun n c => n * 10 + (c.toNat - 48)) 0

def firstDigitRun (s : String) : List Char :=
  (s.toList.dropWhile (fun c => !c.isDigit)).takeWhile Char.isDigit

/-- `slidePath.match(/\d+/)![0]`: the slide number as the matched string,
used to build the notes and relationship paths. -/
def slideNumStr (s : String) : String := String.mk (firstDigitRun s)

def slideNumOf (s : String) : Nat := digitsToNat (firstDigitRun s)

/-- `name.startsWith("ppt/slides/slide") && name.endsWith(".xml")`. -/
def isSlideXml (n : String) : Bool :=
  hasPrefixCL n.toList "ppt/slides/slide".toList && hasSuffixCL n.toList ".xml".toList

/-- Order on archive entry names induced by the comparator
`(a, b) => numA - numB` of pptxParser. -/
def bySlideNum (a b : String) : Prop := slideNumOf a ≤ slideNumOf b

instance : DecidableRel bySlideNum := fun _ _ => Nat.decLe _ _

instance : IsTotal String bySlideNum := ⟨fun _ _ => Nat.le_total _ _⟩

instance : IsTrans String bySlideNum := ⟨fun _ _ _ => Nat.le_trans⟩

/-- `Object.keys(zip.files).filter(...).sort((a, b) => numA - numB)`. -/
def sortSlideFiles (names : List String) : List String :=
  List.insertionSort bySlideNum (names.filter isSlideXml)

/-- C7: the extractor's slide entries are sorted numerically by slide number
(the sorted order is `bySlideNum`-sorted for every archive), and concretely
an archive with slides 1, 9 and 10 — listed in the lexicographic entry order
that would invert 9 and 10 — is processed in the order 1, 9, 10. -/
theorem pptxParser_numeric_sort :
    (∀ names, List.Sorted bySlideNum (sortSlideFiles names)) ∧
    sortSlideFiles ["ppt/presentation.xml", "ppt/slides/slide1.xml",
        "ppt/slides/slide10.xml", "ppt/slides/slide9.xml", "ppt/slides/_rels/slide1.xml.rels"]
      = ["ppt/slides/slide1.xml", "ppt/slides/slide9.xml", "ppt/slides/slide10.xml"] :=
  ⟨fun _ => List.sorted_insertionSort bySlideNum _, by decide⟩

/-- One file of the pptx archive: entry name and content. -/
structure ZipEntry where
  name : String
  content : String
deriving DecidableEq

/-- `zip.file(path)?.async(...)`: exact-name lookup. -/
def zipLookup (entries : List ZipEntry) (path : String) : Option String :=
  (entries.find? (fun e => e.name == path)).map ZipEntry.content

/-- All matches of `/<a:t>([^<]+)<\/a:t>/g`, already stripped of their tags
(the `m.replace(/<\/?a:t>/g, "")` step). -/
def textRuns : List Char → List String
  | [] => []
  | c :: cs =>
    (if hasPrefixCL (c :: cs) "<a:t>".toList then
      let after := (c :: cs).drop 5
      let run := after.takeWhile (fun d => !(d == '<'))
      if !run.isEmpty && hasPrefixCL (after.drop run.length) "</a:t>".toList then
        [String.mk run]
      else []
    else []) ++ textRuns cs

/-- `matches.map(strip).join(" ")`. -/
def xmlJoinedText (xml : String) : String := " ".intercalate (textRuns xml.toList)

/-- Extension alternatives of the image-target regex, in alternation order. -/
def imgExts : List String := ["png", "jpg", "jpeg", "gif", "webp"]

/-- The literal part of `/Target="\.\.\/media\/([^"]+\.(png|jpg|jpeg|gif|webp))"/i`
(lower-case; the scan is case-insensitive). -/
def targetPat : List Char := "target=\"../media/".toList

/-- The extension group of the image-target regex: the candidate (the
captured `[^"]+\.(ext)` text) must end in `.ext` case-insensitively and have
at least one character before the dot. -/
def extMatch (cand : List Char) : Option String :=
  imgExts.find? (fun e =>
    hasSuffixCI cand ('.' :: e.toList) && decide (e.toList.length + 1 < cand.length))

/-- First match of the image-target regex: scan left to right; at a matching
position the capture extends to the closing quote and must end in a known
image extension. -/
def findImageTargetCL : List Char → Option (String × String)
  | [] => none
  | c :: cs =>
    if hasPrefixCI (c :: cs) targetPat then
      let after := (c :: cs).drop targetPat.length
      let cand := after.takeWhile (fun d => !(d == '"'))
      match after.drop cand.length, extMatch cand with
      | '"' :: _, some e => some (String.mk cand, e)
      | _, _ => findImageTargetCL cs
    else findImageTargetCL cs

/-- `ext === "jpg" ? "image/jpeg" : ` `` `image/${ext}` `` . -/
def mimeOf (ext : String) : String := if ext = "jpg" then "image/jpeg" else "image/" ++ ext

/-- Image extraction for one slide: first image target of the relationship
file, resolved against `ppt/media/`, returned as a base64 data URL. -/
def findImage (entries : List ZipEntry) (relsXml : String) : Option String :=
  match findImageTargetCL relsXml.toList with
  | none => none
  | some (fname, ext) =>
    match zipLookup entries ("ppt/media/" ++ fname) with
    | none => none
    | some buf => some ("data:" ++ mimeOf ext ++ ";base64," ++ buf)

/-- One element of `PptxContent.slides`. -/
structure PptxSlideData where
  index : Nat
  text : String
  notes : String
  image : Option String
deriving DecidableEq

/-- `extractTextFromPptx` of services/pptxParser.ts: filter and numerically
sort the slide entries, then for position `i` emit `index: i` together with
the slide text, the notes (from `ppt/notesSlides/notesSlide${slideNum}.xml`,
empty when absent) and the first referenced image (via
`ppt/slides/_rels/slide${slideNum}.xml.rels`), where `slideNum` is the
original slide number taken from the file name. -/
def extractTextFromPptx (entries : List ZipEntry) : List PptxSlideData :=
  (sortSlideFiles (entries.map ZipEntry.name)).enum.map (fun p =>
    let slideNum := slideNumStr p.2
    { index := p.1
      text := xmlJoinedText ((zipLookup entries p.2).getD "")
      notes := match zipLookup entries ("ppt/notesSlides/notesSlide" ++ slideNum ++ ".xml") with
        | some xml => xmlJoinedText xml
        | none => ""
      image := match zipLookup entries ("ppt/slides/_rels/slide" ++ slideNum ++ ".xml.rels") with
        | some relsXml => findImage entries relsXml
        | none => none })

/-- Example archive with non-contiguous slide numbers 2, 5, 9 (listed out of
order), notes files for each, and an image relationship for slide 2. -/
def zipEx : List ZipEntry :=
  [{ name := "ppt/slides/slide2.xml", content := "<a:t>Alpha</a:t>" },
   { name := "ppt/slides/slide9.xml", content := "<a:t>Gamma</a:t>" },
   { name := "ppt/slides/slide5.xml", content := "<a:t>Beta</a:t>" },
   { name := "ppt/notesSlides/notesSlide2.xml", content := "<a:t>NoteTwo</a:t>" },
   { name := "ppt/notesSlides/notesSlide5.xml", content := "<a:t>NoteFive</a:t>" },
   { name := "ppt/notesSlides/notesSlide9.xml", content := "<a:t>NoteNine</a:t>" },
   { name := "ppt/slides/_rels/slide2.xml.rels",
     content := "<Relationship Target=\"../media/image1.png\"/>" },
   { name := "ppt/media/image1.png", content := "BASE64DATA" }]

/-- C10: for every archive, the extractor's `index` fields are exactly the
positions `0..N-1` in the numerically sorted slide sequence; on the concrete
archive with slide numbers 2, 5, 9 the indices are `[0, 1, 2]` while the
original numbers are used only to locate the notes and relationship files
(the notes and image of each output slide come from the number-keyed
paths). -/
theorem pptxParser_positional_index :
    (∀ entries, (extractTextFromPptx entries).map PptxSlideData.index
        = List.range (sortSlideFiles (entries.map ZipEntry.name)).length) ∧
    (extractTextFromPptx zipEx).map PptxSlideData.index = [0, 1, 2] ∧
    (extractTextFromPptx zipEx).map PptxSlideData.notes = ["NoteTwo", "NoteFive", "NoteNine"] ∧
    (extractTextFromPptx zipEx).map PptxSlideData.text = ["Alpha", "Beta", "Gamma"] ∧
    (extractTextFromPptx zipEx).map PptxSlideData.image
      = [some "data:image/png;base64,BASE64DATA", none, none] := by
  refine ⟨?_, by decide, by decide, by decide, by decide⟩
  intro entries
  simp [extractTextFromPptx, List.map_map]
  exact List.enum_map_fst _

end PdfPptxVideo
